import Mathlib

/-!
Verification development for the llvm-ir decoding core (terminator decoding,
function attributes, calling conventions, and function helpers).

The development shallowly embeds the Rust source files src/terminator.rs,
src/function.rs and src/operand.rs.  The foreign LLVM side (llvm-sys handles
and their accessors) is modelled as explicit data: an instruction handle is a
record of the answers the foreign API would give to the queries the decoders
perform (opcode, operand list, successor list, unwind destination, value name,
and so on).  Handles are compared by identity, so they are modelled as natural
numbers.  A Rust function that can panic is embedded as an Option-valued
function, with none standing for the panic (no partial result).

Parts of the repository that the decoders use but whose files are not under
src (name.rs, basicblock.rs, types.rs, constant.rs, instruction.rs,
module.rs, from_llvm.rs) are modelled from the spec; each such definition
carries a doc comment saying so.
-/

/-- An identifier: either an explicit string from the source module or a
synthetic sequence number.  Mirrors the Name enum of the crate (name.rs is not
under src; the shape is taken from spec section 3: "either an explicit string
from the source module or a synthetic sequence number", equality by
(kind, value)). -/
inductive Name where
  | name (s : String)
  | number (n : Nat)
deriving DecidableEq, Repr

/-- Modelled from the spec: Name.name_or_num (name.rs is not under src).
Spec sections 3 and 4.3: an entity with an explicit foreign name records that
name as-is with no counter consumption; an entity lacking an explicit name is
assigned the next value of the per-function counter, which is incremented.
The foreign name is an Option String, none standing for the empty foreign
value name.  Returns the assigned name together with the new counter value. -/
def Name.name_or_num : Option String → Nat → Name × Nat
  | some s, ctr => (Name.name s, ctr)
  | none, ctr => (Name.number ctr, ctr + 1)

/-- Owned structural type graph node.  Modelled from the spec (types.rs is not
under src; spec section 3: "a node in a structural type graph (void,
integer-with-bitwidth, pointer, array, vector, structure, function-signature,
...)").  Only the constructors the claims need are given; a metadata type is
included because operand.rs gives metadata operands the metadata type. -/
inductive LLVMType where
  | void
  | integer (bits : Nat)
  | pointer
  | metadata
  | func (result_type : LLVMType) (param_types : List LLVMType) (is_var_arg : Bool)
deriving Repr

/-- Modelled from the spec: an interned constant handle (constant.rs is not
under src; spec section 3: constants are interned, keyed by foreign handle
identity, and an operand computes its type on demand - the intrinsic type for
constants).  Abstracted to the identity of the owned instance plus its
intrinsic type. -/
structure ConstantRef where
  id : Nat
  ty : LLVMType
deriving Repr

/-- A source-location tag.  Modelled from the spec (debugloc.rs is not under
src; spec section 3: "a source-location tag (optional, version-gated)").
The contents are irrelevant to every claim. -/
structure DebugLoc where
  line : Nat
  col : Nat
deriving DecidableEq, Repr

/-- The operand sum type from operand.rs: a local reference by Name with its
declared type, an interned constant, or a non-IR metadata marker. -/
inductive Operand where
  | localOperand (name : Name) (ty : LLVMType)
  | constantOperand (c : ConstantRef)
  | metadataOperand
deriving Repr

/-- The Typed impl for Operand from operand.rs: declared type for locals,
intrinsic type for constants, the metadata type for metadata operands.
The Types interner handle is modelled away: type_of on a constant returns the
constant's intrinsic type per the spec. -/
def Operand.get_type : Operand → LLVMType
  | .localOperand _ ty => ty
  | .constantOperand c => c.ty
  | .metadataOperand => .metadata

/-- Modelled from the spec: an inline-assembly callee (instruction.rs is not
under src).  Abstracted to the semantic type it reports to the Typed
capability. -/
structure InlineAssembly where
  ty : LLVMType
deriving Repr

/-- The calling-convention catalog from function.rs: a closed enumeration plus
a Numbered escape for any foreign integer code not in the enumeration. -/
inductive CallingConvention where
  | C
  | Fast
  | Cold
  | GHC
  | HiPE
  | WebKit_JS
  | AnyReg
  | PreserveMost
  | PreserveAll
  | Swift
  | CXX_FastTLS
  | X86_StdCall
  | X86_FastCall
  | X86_RegCall
  | X86_ThisCall
  | X86_VectorCall
  | X86_Intr
  | X86_64_SysV
  | ARM_APCS
  | ARM_AAPCS
  | ARM_AAPCS_VFP
  | MSP430_INTR
  | MSP430_Builtin
  | PTX_Kernel
  | PTX_Device
  | SPIR_FUNC
  | SPIR_KERNEL
  | Intel_OCL_BI
  | Win64
  | HHVM
  | HHVM_C
  | AVR_Intr
  | AVR_Signal
  | AVR_Builtin
  | AMDGPU_CS
  | AMDGPU_ES
  | AMDGPU_GS
  | AMDGPU_HS
  | AMDGPU_LS
  | AMDGPU_PS
  | AMDGPU_VS
  | AMDGPU_Kernel
  | Numbered (u : Nat)
deriving Repr

/-- The function-attribute catalog from function.rs, with the version-gated
variants of the llvm-12 configuration included (NoFree, WillReturn, NoSync,
SanitizeMemTag from llvm-9; NoMerge, NullPointerIsValid from llvm-11). -/
inductive FunctionAttribute where
  | AlignStack (v : Nat)
  | AllocSize (elt_size : Nat) (num_elts : Option Nat)
  | AlwaysInline
  | Builtin
  | Cold
  | Convergent
  | InaccessibleMemOnly
  | InaccessibleMemOrArgMemOnly
  | InlineHint
  | JumpTable
  | MinimizeSize
  | Naked
  | NoBuiltin
  | NoCFCheck
  | NoDuplicate
  | NoFree
  | NoImplicitFloat
  | NoInline
  | NoMerge
  | NonLazyBind
  | NoRedZone
  | NoReturn
  | NoRecurse
  | WillReturn
  | ReturnsTwice
  | NoSync
  | NoUnwind
  | NullPointerIsValid
  | OptForFuzzing
  | OptNone
  | OptSize
  | ReadNone
  | ReadOnly
  | WriteOnly
  | ArgMemOnly
  | SafeStack
  | SanitizeAddress
  | SanitizeMemory
  | SanitizeThread
  | SanitizeHWAddress
  | SanitizeMemTag
  | ShadowCallStack
  | SpeculativeLoadHardening
  | Speculatable
  | StackProtect
  | StackProtectReq
  | StackProtectStrong
  | StrictFP
  | UWTable
  | StringAttribute (kind : String) (value : String)
  | UnknownAttribute
deriving Repr

/-- The parameter-attribute catalog from function.rs, in the llvm-12
configuration (ByVal and SRet carry a value; Preallocated, NoFree, ImmArg,
NoUndef included). -/
inductive ParameterAttribute where
  | ZeroExt
  | SignExt
  | InReg
  | ByVal (v : Nat)
  | Preallocated
  | InAlloca
  | SRet (v : Nat)
  | Alignment (v : Nat)
  | NoAlias
  | NoCapture
  | NoFree
  | Nest
  | Returned
  | NonNull
  | Dereferenceable (v : Nat)
  | DereferenceableOrNull (v : Nat)
  | SwiftSelf
  | SwiftError
  | ImmArg
  | NoUndef
  | StringAttribute (kind : String) (value : String)
  | UnknownAttribute
deriving Repr

/-- Modelled from the spec: the decoded call-site information shared by the
call-like variants (CallInfo::from_llvm_ref lives in instruction.rs, which is
not under src).  It carries the callee, arguments with their attributes,
return attributes, function attributes, and the calling convention, exactly
the fields Invoke::from_llvm_ref and CallBr::from_llvm_ref copy out of it.
The callee is either inline assembly or an operand. -/
structure CallInfo where
  function : Sum InlineAssembly Operand
  arguments : List (Operand × List ParameterAttribute)
  return_attributes : List ParameterAttribute
  function_attributes : List FunctionAttribute
  calling_convention : CallingConvention
deriving Repr

/-- The ret terminator struct from terminator.rs. -/
structure Ret where
  return_operand : Option Operand
  debugloc : Option DebugLoc
deriving Repr

/-- The unconditional-branch terminator struct from terminator.rs. -/
structure Br where
  dest : Name
  debugloc : Option DebugLoc
deriving DecidableEq, Repr

/-- The conditional-branch terminator struct from terminator.rs. -/
structure CondBr where
  condition : Operand
  true_dest : Name
  false_dest : Name
  debugloc : Option DebugLoc
deriving Repr

/-- The switch terminator struct from terminator.rs. -/
structure Switch where
  operand : Operand
  dests : List (ConstantRef × Name)
  default_dest : Name
  debugloc : Option DebugLoc
deriving Repr

/-- The indirectbr terminator struct from terminator.rs. -/
structure IndirectBr where
  operand : Operand
  possible_dests : List Name
  debugloc : Option DebugLoc
deriving Repr

/-- The invoke terminator struct from terminator.rs. -/
structure Invoke where
  function : Sum InlineAssembly Operand
  arguments : List (Operand × List ParameterAttribute)
  return_attributes : List ParameterAttribute
  result : Name
  return_label : Name
  exception_label : Name
  function_attributes : List FunctionAttribute
  calling_convention : CallingConvention
  debugloc : Option DebugLoc
deriving Repr

/-- The resume terminator struct from terminator.rs. -/
structure Resume where
  operand : Operand
  debugloc : Option DebugLoc
deriving Repr

/-- The unreachable terminator struct from terminator.rs. -/
structure Unreachable where
  debugloc : Option DebugLoc
deriving DecidableEq, Repr

/-- The cleanupret terminator struct from terminator.rs.  A none unwind_dest
indicates unwind to caller. -/
structure CleanupRet where
  cleanup_pad : Operand
  unwind_dest : Option Name
  debugloc : Option DebugLoc
deriving Repr

/-- The catchret terminator struct from terminator.rs. -/
structure CatchRet where
  catch_pad : Operand
  successor : Name
  debugloc : Option DebugLoc
deriving Repr

/-- The catchswitch terminator struct from terminator.rs.  A none
default_unwind_dest indicates unwind to caller. -/
structure CatchSwitch where
  parent_pad : Operand
  catch_handlers : List Name
  default_unwind_dest : Option Name
  result : Name
  debugloc : Option DebugLoc
deriving Repr

/-- The callbr terminator struct from terminator.rs.  other_labels is the unit
type in the source (the information is unobtainable through the LLVM C API). -/
structure CallBr where
  function : Sum InlineAssembly Operand
  arguments : List (Operand × List ParameterAttribute)
  return_attributes : List ParameterAttribute
  result : Name
  return_label : Name
  other_labels : Unit
  function_attributes : List FunctionAttribute
  calling_convention : CallingConvention
  debugloc : Option DebugLoc
deriving Repr

/-- The Terminator sum type from terminator.rs: one variant per terminator
instruction kind. -/
inductive Terminator where
  | ret (t : Ret)
  | br (t : Br)
  | condBr (t : CondBr)
  | switch (t : Switch)
  | indirectBr (t : IndirectBr)
  | invoke (t : Invoke)
  | resume (t : Resume)
  | unreachable (t : Unreachable)
  | cleanupRet (t : CleanupRet)
  | catchRet (t : CatchRet)
  | catchSwitch (t : CatchSwitch)
  | callBr (t : CallBr)
deriving Repr

/-- Modelled from the spec: a basic block owns an ordered instruction sequence
ending in exactly one terminator and is identified by Name, unique within its
owning function (basicblock.rs is not under src).  The non-terminator
instruction list is omitted: instruction.rs is not under src and no claim
concerns it. -/
structure BasicBlock where
  name : Name
  term : Terminator
deriving Repr

/-- A function parameter from function.rs. -/
structure Parameter where
  name : Name
  ty : LLVMType
  attributes : List ParameterAttribute
deriving Repr

/-- The Function struct from function.rs.  The linkage, visibility,
dll_storage_class and comdat fields are omitted: their types live in
module.rs, which is not under src, and no claim concerns them. -/
structure Function where
  name : String
  parameters : List Parameter
  is_var_arg : Bool
  return_type : LLVMType
  basic_blocks : List BasicBlock
  function_attributes : List FunctionAttribute
  return_attributes : List ParameterAttribute
  calling_convention : CallingConvention
  «section» : Option String
  alignment : Nat
  garbage_collector_name : Option String
  personality_function : Option ConstantRef
  debugloc : Option DebugLoc
deriving Repr

/-- Function::get_bb_by_name from function.rs: walk the basic-block list in
order and return the first block whose name equals the given name, or none. -/
def Function.get_bb_by_name (f : Function) (name : Name) : Option BasicBlock :=
  f.basic_blocks.find? (fun bb => bb.name = name)

/-- A foreign LLVM value handle, compared by identity (spec section 9:
foreign handles are treated as pure keys into the session caches). -/
abbrev ValueRef := Nat

/-- A foreign LLVM basic-block handle, compared by identity. -/
abbrev BBRef := Nat

/-- The classification operand.rs performs on a foreign value handle:
a constant (LLVMIsAConstant non-null), a metadata-as-value, or anything else
(a local).  For a constant the classification carries the owned handle the
interner produces for it (Constant::from_llvm_ref, constant.rs not under src,
is modelled as the interner of spec section 4.2: a function of handle
identity); for a local it carries the owned type decoded from the foreign
type of the value (LLVMTypeOf followed by type_from_llvm_ref, types.rs not
under src, likewise modelled as a function of the handle). -/
inductive ValueDesc where
  | constant (c : ConstantRef)
  | metadata
  | localValue (ty : LLVMType)

/-- The opcode of a foreign instruction, as returned by
LLVMGetInstructionOpcode.  The terminator opcodes are listed individually;
every other opcode is carried numerically by the other constructor. -/
inductive LLVMOpcode where
  | ret
  | br
  | switch
  | indirectBr
  | invoke
  | resume
  | unreachable
  | cleanupRet
  | catchRet
  | catchSwitch
  | callBr
  | other (code : Nat)
deriving DecidableEq, Repr

/-- The foreign environment: the answers the foreign library gives to the
per-value queries the decoders make.  opToBB is the op_to_bb helper of
from_llvm.rs (not under src), which reinterprets a block-typed value handle
as a basic-block handle; valueDesc is the classification described at
ValueDesc. -/
structure LLVMEnv where
  opToBB : ValueRef → BBRef
  valueDesc : ValueRef → ValueDesc

/-- A foreign instruction handle, modelled as the record of the answers the
foreign API gives for it: LLVMGetInstructionOpcode, the operand list
(LLVMGetNumOperands / LLVMGetOperand), the successor list
(LLVMGetNumSuccessors / LLVMGetSuccessor), LLVMGetUnwindDest (none models a
null result), LLVMGetNormalDest, LLVMGetSwitchDefaultDest, LLVMGetHandlers,
the value name (get_value_name; none models the empty name), the decoded
source location, and the decoded call-site information for call-like
instructions (see CallInfo). -/
structure LLVMInstr where
  opcode : LLVMOpcode
  operands : List ValueRef
  successors : List BBRef
  unwindDest : Option BBRef
  normalDest : BBRef
  switchDefaultDest : BBRef
  handlers : List BBRef
  valueName : Option String
  debugLoc : Option DebugLoc
  callinfo : CallInfo

/-- The FunctionContext struct from function.rs: the phase-1 mapping from
basic-block handles to Names, the phase-1 mapping from value handles to
Names, and the per-function naming counter.  The HashMaps are modelled as
association lists with the handle as key. -/
structure FunctionContext where
  bb_names : List (BBRef × Name)
  val_names : List (ValueRef × Name)
  ctr : Nat

/-- Operand::from_llvm_ref from operand.rs: a constant handle becomes a
constant operand via the interner; a metadata-as-value becomes the metadata
marker; anything else is a local whose Name is looked up in the phase-1 value
map (a missing entry is a panic, modelled as none) and whose type is the
decoded foreign type of the value. -/
def Operand.from_llvm_ref (env : LLVMEnv) (fctx : FunctionContext) (v : ValueRef) :
    Option Operand :=
  match env.valueDesc v with
  | .constant c => some (.constantOperand c)
  | .metadata => some .metadataOperand
  | .localValue ty =>
    match fctx.val_names.lookup v with
    | some n => some (.localOperand n ty)
    | none => none

/-- Ret::from_llvm_ref from terminator.rs: zero operands give an empty
return, one operand is decoded as the returned value, any other operand
count is a panic. -/
def Ret.from_llvm_ref (env : LLVMEnv) (t : LLVMInstr) (fctx : FunctionContext) :
    Option Ret := do
  let rop ← match t.operands with
    | [] => some none
    | [v] => (Operand.from_llvm_ref env fctx v).map some
    | _ => none
  pure ⟨rop, t.debugLoc⟩

/-- Br::from_llvm_ref from terminator.rs: asserts exactly one operand, then
takes the destination Name from the phase-1 block map at the block handle of
operand 0 (a missing entry is a panic, modelled as none). -/
def Br.from_llvm_ref (env : LLVMEnv) (t : LLVMInstr) (fctx : FunctionContext) :
    Option Br := do
  if t.operands.length = 1 then
    let v ← t.operands.get? 0
    let dest ← fctx.bb_names.lookup (env.opToBB v)
    pure ⟨dest, t.debugLoc⟩
  else
    none

/-- CondBr::from_llvm_ref from terminator.rs: asserts exactly three operands;
the condition is decoded from operand 0, the true destination is the block of
operand 2, the false destination is the block of operand 1. -/
def CondBr.from_llvm_ref (env : LLVMEnv) (t : LLVMInstr) (fctx : FunctionContext) :
    Option CondBr := do
  if t.operands.length = 3 then
    let v0 ← t.operands.get? 0
    let condition ← Operand.from_llvm_ref env fctx v0
    let v2 ← t.operands.get? 2
    let true_dest ← fctx.bb_names.lookup (env.opToBB v2)
    let v1 ← t.operands.get? 1
    let false_dest ← fctx.bb_names.lookup (env.opToBB v1)
    pure ⟨condition, true_dest, false_dest, t.debugLoc⟩
  else
    none

/-- The dests loop of Switch::from_llvm_ref from terminator.rs, rendered as
explicit recursion over the case index.  The Rust code zips the case-value
iterator over operand slots 2*i for i in 1 .. num_successors with the
case-destination iterator over successor slots 1 ..= num_successors; the zip
truncates to the shorter (value) iterator, so exactly the slots
i = 1 .. num_successors - 1 of each are consumed, value before destination.
Here i is the current slot index and fuel the number of cases remaining. -/
def Switch.collectDests (env : LLVMEnv) (t : LLVMInstr) (fctx : FunctionContext) :
    Nat → Nat → Option (List (ConstantRef × Name))
  | _, 0 => some []
  | i, fuel + 1 => do
    let vref ← t.operands.get? (2 * i)
    let c ← match env.valueDesc vref with
      | .constant c => some c
      | _ => none
    let bref ← t.successors.get? i
    let nm ← fctx.bb_names.lookup bref
    let rest ← Switch.collectDests env t fctx (i + 1) fuel
    pure ((c, nm) :: rest)

/-- Switch::from_llvm_ref from terminator.rs: operand 0 is the scrutinee; the
case list pairs the constants at operand slots 2, 4, ... with the Names of
successor slots 1, 2, ...; the default destination is the Name of the block
returned by LLVMGetSwitchDefaultDest.  The foreign constant handle at a case
slot is required to classify as a constant (Constant::from_llvm_ref on a
non-constant is a panic, modelled as none). -/
def Switch.from_llvm_ref (env : LLVMEnv) (t : LLVMInstr) (fctx : FunctionContext) :
    Option Switch := do
  let v0 ← t.operands.get? 0
  let operand ← Operand.from_llvm_ref env fctx v0
  let dests ← Switch.collectDests env t fctx 1 (t.successors.length - 1)
  let default_dest ← fctx.bb_names.lookup t.switchDefaultDest
  pure ⟨operand, dests, default_dest, t.debugLoc⟩

/-- IndirectBr::from_llvm_ref from terminator.rs: operand 0 is the address;
the possible destinations are the Names of all successor slots in order. -/
def IndirectBr.from_llvm_ref (env : LLVMEnv) (t : LLVMInstr) (fctx : FunctionContext) :
    Option IndirectBr := do
  let v0 ← t.operands.get? 0
  let operand ← Operand.from_llvm_ref env fctx v0
  let possible_dests ← t.successors.mapM (fun b => fctx.bb_names.lookup b)
  pure ⟨operand, possible_dests, t.debugLoc⟩

/-- Invoke::from_llvm_ref from terminator.rs: copies the decoded call-site
information, assigns the result Name with Name::name_or_num against the
function context counter (returning the new counter value), and resolves the
return and exception labels through the phase-1 block map at LLVMGetNormalDest
and LLVMGetUnwindDest (a null unwind destination or a missing map entry is a
panic, modelled as none). -/
def Invoke.from_llvm_ref (env : LLVMEnv) (t : LLVMInstr) (fctx : FunctionContext) :
    Option (Invoke × Nat) := do
  let rn := Name.name_or_num t.valueName fctx.ctr
  let return_label ← fctx.bb_names.lookup t.normalDest
  let ud ← t.unwindDest
  let exception_label ← fctx.bb_names.lookup ud
  pure (⟨t.callinfo.function, t.callinfo.arguments, t.callinfo.return_attributes,
         rn.1, return_label, exception_label, t.callinfo.function_attributes,
         t.callinfo.calling_convention, t.debugLoc⟩, rn.2)

/-- Resume::from_llvm_ref from terminator.rs: asserts one operand and decodes
it. -/
def Resume.from_llvm_ref (env : LLVMEnv) (t : LLVMInstr) (fctx : FunctionContext) :
    Option Resume := do
  if t.operands.length = 1 then
    let v0 ← t.operands.get? 0
    let operand ← Operand.from_llvm_ref env fctx v0
    pure ⟨operand, t.debugLoc⟩
  else
    none

/-- Unreachable::from_llvm_ref from terminator.rs: asserts zero operands. -/
def Unreachable.from_llvm_ref (t : LLVMInstr) : Option Unreachable :=
  if t.operands.length = 0 then
    some ⟨t.debugLoc⟩
  else
    none

/-- CleanupRet::from_llvm_ref from terminator.rs: asserts one operand (the
cleanup pad, decoded as an operand); a null LLVMGetUnwindDest becomes an
explicit none (unwind to caller), a non-null one is resolved through the
phase-1 block map (a missing entry is a panic, modelled as none overall). -/
def CleanupRet.from_llvm_ref (env : LLVMEnv) (t : LLVMInstr) (fctx : FunctionContext) :
    Option CleanupRet := do
  if t.operands.length = 1 then
    let v0 ← t.operands.get? 0
    let cleanup_pad ← Operand.from_llvm_ref env fctx v0
    let unwind_dest ← match t.unwindDest with
      | none => some none
      | some d => (fctx.bb_names.lookup d).map some
    pure ⟨cleanup_pad, unwind_dest, t.debugLoc⟩
  else
    none

/-- CatchRet::from_llvm_ref from terminator.rs: operand 0 is the catch pad;
the successor is the Name of successor slot 0. -/
def CatchRet.from_llvm_ref (env : LLVMEnv) (t : LLVMInstr) (fctx : FunctionContext) :
    Option CatchRet := do
  let v0 ← t.operands.get? 0
  let catch_pad ← Operand.from_llvm_ref env fctx v0
  let bref ← t.successors.get? 0
  let successor ← fctx.bb_names.lookup bref
  pure ⟨catch_pad, successor, t.debugLoc⟩

/-- CatchSwitch::from_llvm_ref from terminator.rs: operand 0 is the parent
pad; the catch handlers are the Names of the LLVMGetHandlers blocks in order;
a null LLVMGetUnwindDest becomes an explicit none, a non-null one is resolved
through the phase-1 block map; the result Name is assigned with
Name::name_or_num against the function context counter (returning the new
counter value). -/
def CatchSwitch.from_llvm_ref (env : LLVMEnv) (t : LLVMInstr) (fctx : FunctionContext) :
    Option (CatchSwitch × Nat) := do
  let v0 ← t.operands.get? 0
  let parent_pad ← Operand.from_llvm_ref env fctx v0
  let catch_handlers ← t.handlers.mapM (fun h => fctx.bb_names.lookup h)
  let default_unwind_dest ← match t.unwindDest with
    | none => some none
    | some d => (fctx.bb_names.lookup d).map some
  let rn := Name.name_or_num t.valueName fctx.ctr
  pure (⟨parent_pad, catch_handlers, default_unwind_dest, rn.1, t.debugLoc⟩, rn.2)

/-- CallBr::from_llvm_ref from terminator.rs: copies the decoded call-site
information, assigns the result Name with Name::name_or_num against the
function context counter (returning the new counter value), resolves the
return label at LLVMGetNormalDest, and leaves other_labels as the unit
value. -/
def CallBr.from_llvm_ref (env : LLVMEnv) (t : LLVMInstr) (fctx : FunctionContext) :
    Option (CallBr × Nat) := do
  let rn := Name.name_or_num t.valueName fctx.ctr
  let return_label ← fctx.bb_names.lookup t.normalDest
  pure (⟨t.callinfo.function, t.callinfo.arguments, t.callinfo.return_attributes,
         rn.1, return_label, (), t.callinfo.function_attributes,
         t.callinfo.calling_convention, t.debugLoc⟩, rn.2)

/-- Terminator::from_llvm_ref from terminator.rs: dispatch on the opcode,
with the br opcode further dispatched on the operand count (1 gives the
unconditional variant, 3 the conditional one, anything else is a panic); a
non-terminator opcode is a panic.  Returns the decoded terminator together
with the function context counter after decoding (only the invoke,
catchswitch and callbr rules can advance it). -/
def Terminator.from_llvm_ref (env : LLVMEnv) (t : LLVMInstr) (fctx : FunctionContext) :
    Option (Terminator × Nat) :=
  match t.opcode with
  | .ret => (Ret.from_llvm_ref env t fctx).map (fun r => (.ret r, fctx.ctr))
  | .br =>
    match t.operands.length with
    | 1 => (Br.from_llvm_ref env t fctx).map (fun r => (.br r, fctx.ctr))
    | 3 => (CondBr.from_llvm_ref env t fctx).map (fun r => (.condBr r, fctx.ctr))
    | _ => none
  | .switch => (Switch.from_llvm_ref env t fctx).map (fun r => (.switch r, fctx.ctr))
  | .indirectBr => (IndirectBr.from_llvm_ref env t fctx).map (fun r => (.indirectBr r, fctx.ctr))
  | .invoke => (Invoke.from_llvm_ref env t fctx).map (fun rc => (.invoke rc.1, rc.2))
  | .resume => (Resume.from_llvm_ref env t fctx).map (fun r => (.resume r, fctx.ctr))
  | .unreachable => (Unreachable.from_llvm_ref t).map (fun r => (.unreachable r, fctx.ctr))
  | .cleanupRet => (CleanupRet.from_llvm_ref env t fctx).map (fun r => (.cleanupRet r, fctx.ctr))
  | .catchRet => (CatchRet.from_llvm_ref env t fctx).map (fun r => (.catchRet r, fctx.ctr))
  | .catchSwitch => (CatchSwitch.from_llvm_ref env t fctx).map (fun rc => (.catchSwitch rc.1, rc.2))
  | .callBr => (CallBr.from_llvm_ref env t fctx).map (fun rc => (.callBr rc.1, rc.2))
  | .other _ => none

/-- A foreign attribute handle, modelled as the record of the answers the
foreign API gives for it: an enum attribute (LLVMIsEnumAttribute) carries its
kind (LLVMGetEnumAttributeKind) and value (LLVMGetEnumAttributeValue, a u64);
a string attribute carries its kind and value strings; otherAttr models an
attribute that is neither enum nor string. -/
inductive LLVMAttribute where
  | enum (kind : Nat) (value : Nat)
  | string (kind : String) (value : String)
  | otherAttr
deriving DecidableEq, Repr

/-- The AttributesData struct from function.rs: lookup tables mapping the
foreign enumerated attribute kind to the symbolic attribute name, for the
function-level and parameter-level namespaces.  The HashMaps are modelled as
association lists keyed by the kind. -/
structure AttributesData where
  function_attribute_names : List (Nat × String)
  param_attribute_names : List (Nat × String)

/-- AttributesData::lookup_function_attr from function.rs: the string name of
an enum-style function attribute, or none if it is not one we know about. -/
def AttributesData.lookup_function_attr (ad : AttributesData) (kind : Nat) : Option String :=
  ad.function_attribute_names.lookup kind

/-- AttributesData::lookup_param_attr from function.rs: the string name of an
enum-style parameter attribute, or none if it is not one we know about. -/
def AttributesData.lookup_param_attr (ad : AttributesData) (kind : Nat) : Option String :=
  ad.param_attribute_names.lookup kind

/-- The helper of FunctionAttribute::from_llvm_ref that decodes the allocsize
enum value: the elt_size is the upper 32 bits of the u64 value, the num_elts
is the lower 32 bits with all-ones as the sentinel for none. -/
def FunctionAttribute.decodeAllocSize (value : Nat) : FunctionAttribute :=
  FunctionAttribute.AllocSize ((value / 4294967296) % 4294967296)
    (if value % 4294967296 = 4294967295 then none else some (value % 4294967296))

/-- FunctionAttribute::from_llvm_ref from function.rs: an enum attribute is
resolved through the catalog - a known name maps to its variant, an unmapped
name in the catalog would be a panic (modelled as none), and a kind the
catalog does not know (lookup gives none) degrades to UnknownAttribute; a
string attribute becomes StringAttribute; anything else degrades to
UnknownAttribute.  The llvm-12 configuration of the version gates is used. -/
def FunctionAttribute.from_llvm_ref (a : LLVMAttribute) (attrsdata : AttributesData) :
    Option FunctionAttribute :=
  match a with
  | .enum kind value =>
    match attrsdata.lookup_function_attr kind with
    | some "alignstack" => some (.AlignStack value)
    | some "allocsize" => some (FunctionAttribute.decodeAllocSize value)
    | some "alwaysinline" => some .AlwaysInline
    | some "builtin" => some .Builtin
    | some "cold" => some .Cold
    | some "convergent" => some .Convergent
    | some "inaccessiblememonly" => some .InaccessibleMemOnly
    | some "inaccessiblemem_or_argmemonly" => some .InaccessibleMemOrArgMemOnly
    | some "inlinehint" => some .InlineHint
    | some "jumptable" => some .JumpTable
    | some "minsize" => some .MinimizeSize
    | some "naked" => some .Naked
    | some "nobuiltin" => some .NoBuiltin
    | some "nocf_check" => some .NoCFCheck
    | some "noduplicate" => some .NoDuplicate
    | some "nofree" => some .NoFree
    | some "noimplicitfloat" => some .NoImplicitFloat
    | some "noinline" => some .NoInline
    | some "nomerge" => some .NoMerge
    | some "nonlazybind" => some .NonLazyBind
    | some "noredzone" => some .NoRedZone
    | some "noreturn" => some .NoReturn
    | some "norecurse" => some .NoRecurse
    | some "willreturn" => some .WillReturn
    | some "returns_twice" => some .ReturnsTwice
    | some "nosync" => some .NoSync
    | some "nounwind" => some .NoUnwind
    | some "null_pointer_is_valid" => some .NullPointerIsValid
    | some "optforfuzzing" => some .OptForFuzzing
    | some "optnone" => some .OptNone
    | some "optsize" => some .OptSize
    | some "readnone" => some .ReadNone
    | some "readonly" => some .ReadOnly
    | some "writeonly" => some .WriteOnly
    | some "argmemonly" => some .ArgMemOnly
    | some "safestack" => some .SafeStack
    | some "sanitize_address" => some .SanitizeAddress
    | some "sanitize_memory" => some .SanitizeMemory
    | some "sanitize_thread" => some .SanitizeThread
    | some "sanitize_hwaddress" => some .SanitizeHWAddress
    | some "sanitize_memtag" => some .SanitizeMemTag
    | some "shadowcallstack" => some .ShadowCallStack
    | some "speculative_load_hardening" => some .SpeculativeLoadHardening
    | some "speculatable" => some .Speculatable
    | some "ssp" => some .StackProtect
    | some "sspreq" => some .StackProtectReq
    | some "sspstrong" => some .StackProtectStrong
    | some "strictfp" => some .StrictFP
    | some "uwtable" => some .UWTable
    | some _ => none
    | none => some .UnknownAttribute
  | .string kind value => some (.StringAttribute kind value)
  | .otherAttr => some .UnknownAttribute

/-- ParameterAttribute::from_llvm_ref from function.rs: same structure as the
function-attribute decoder, over the parameter-attribute catalog, in the
llvm-12 configuration of the version gates. -/
def ParameterAttribute.from_llvm_ref (a : LLVMAttribute) (attrsdata : AttributesData) :
    Option ParameterAttribute :=
  match a with
  | .enum kind value =>
    match attrsdata.lookup_param_attr kind with
    | some "zeroext" => some .ZeroExt
    | some "signext" => some .SignExt
    | some "inreg" => some .InReg
    | some "byval" => some (.ByVal value)
    | some "preallocated" => some .Preallocated
    | some "inalloca" => some .InAlloca
    | some "sret" => some (.SRet value)
    | some "align" => some (.Alignment value)
    | some "noalias" => some .NoAlias
    | some "nocapture" => some .NoCapture
    | some "nofree" => some .NoFree
    | some "nest" => some .Nest
    | some "returned" => some .Returned
    | some "nonnull" => some .NonNull
    | some "dereferenceable" => some (.Dereferenceable value)
    | some "dereferenceable_or_null" => some (.DereferenceableOrNull value)
    | some "swiftself" => some .SwiftSelf
    | some "swifterror" => some .SwiftError
    | some "immarg" => some .ImmArg
    | some "noundef" => some .NoUndef
    | some _ => none
    | none => some .UnknownAttribute
  | .string kind value => some (.StringAttribute kind value)
  | .otherAttr => some .UnknownAttribute

/-- CallingConvention::from_u32 from function.rs: each code of the foreign
LLVMCallConv enumeration maps to the named variant, and any other u32 code u
maps to Numbered u.  The numeric codes are the discriminants of the foreign
llvm-sys LLVMCallConv enumeration, inlined. -/
def CallingConvention.from_u32 (u : Nat) : CallingConvention :=
  if u = 0 then .C
  else if u = 8 then .Fast
  else if u = 9 then .Cold
  else if u = 10 then .GHC
  else if u = 11 then .HiPE
  else if u = 12 then .WebKit_JS
  else if u = 13 then .AnyReg
  else if u = 14 then .PreserveMost
  else if u = 15 then .PreserveAll
  else if u = 16 then .Swift
  else if u = 17 then .CXX_FastTLS
  else if u = 64 then .X86_StdCall
  else if u = 65 then .X86_FastCall
  else if u = 92 then .X86_RegCall
  else if u = 70 then .X86_ThisCall
  else if u = 80 then .X86_VectorCall
  else if u = 83 then .X86_Intr
  else if u = 78 then .X86_64_SysV
  else if u = 66 then .ARM_APCS
  else if u = 67 then .ARM_AAPCS
  else if u = 68 then .ARM_AAPCS_VFP
  else if u = 69 then .MSP430_INTR
  else if u = 94 then .MSP430_Builtin
  else if u = 71 then .PTX_Kernel
  else if u = 72 then .PTX_Device
  else if u = 75 then .SPIR_FUNC
  else if u = 76 then .SPIR_KERNEL
  else if u = 77 then .Intel_OCL_BI
  else if u = 79 then .Win64
  else if u = 81 then .HHVM
  else if u = 82 then .HHVM_C
  else if u = 84 then .AVR_Intr
  else if u = 85 then .AVR_Signal
  else if u = 86 then .AVR_Builtin
  else if u = 90 then .AMDGPU_CS
  else if u = 96 then .AMDGPU_ES
  else if u = 88 then .AMDGPU_GS
  else if u = 93 then .AMDGPU_HS
  else if u = 95 then .AMDGPU_LS
  else if u = 89 then .AMDGPU_PS
  else if u = 87 then .AMDGPU_VS
  else if u = 91 then .AMDGPU_Kernel
  else .Numbered u

/-- The codes of the foreign LLVMCallConv enumeration, i.e. exactly the codes
CallingConvention::from_u32 recognizes by name. -/
def knownCallConvCodes : List Nat :=
  [0, 8, 9, 10, 11, 12, 13, 14, 15, 16, 17,
   64, 65, 66, 67, 68, 69, 70, 71, 72, 75, 76, 77, 78, 79, 80, 81, 82,
   83, 84, 85, 86, 87, 88, 89, 90, 91, 92, 93, 94, 95, 96]

/-- The inverse reading of a decoded calling convention: the foreign u32 code
it came from.  Named variants recover their LLVMCallConv code and Numbered u
recovers u.  This witnesses that the original code is recoverable from the
result of CallingConvention::from_u32. -/
def CallingConvention.to_u32 : CallingConvention → Nat
  | .C => 0
  | .Fast => 8
  | .Cold => 9
  | .GHC => 10
  | .HiPE => 11
  | .WebKit_JS => 12
  | .AnyReg => 13
  | .PreserveMost => 14
  | .PreserveAll => 15
  | .Swift => 16
  | .CXX_FastTLS => 17
  | .X86_StdCall => 64
  | .X86_FastCall => 65
  | .X86_RegCall => 92
  | .X86_ThisCall => 70
  | .X86_VectorCall => 80
  | .X86_Intr => 83
  | .X86_64_SysV => 78
  | .ARM_APCS => 66
  | .ARM_AAPCS => 67
  | .ARM_AAPCS_VFP => 68
  | .MSP430_INTR => 69
  | .MSP430_Builtin => 94
  | .PTX_Kernel => 71
  | .PTX_Device => 72
  | .SPIR_FUNC => 75
  | .SPIR_KERNEL => 76
  | .Intel_OCL_BI => 77
  | .Win64 => 79
  | .HHVM => 81
  | .HHVM_C => 82
  | .AVR_Intr => 84
  | .AVR_Signal => 85
  | .AVR_Builtin => 86
  | .AMDGPU_CS => 90
  | .AMDGPU_ES => 96
  | .AMDGPU_GS => 88
  | .AMDGPU_HS => 93
  | .AMDGPU_LS => 95
  | .AMDGPU_PS => 89
  | .AMDGPU_VS => 87
  | .AMDGPU_Kernel => 91
  | .Numbered u => u

/-- Whether a decoded calling convention is the Numbered escape variant, as a
boolean discriminator (used to state decidable facts about from_u32 without
an equality decision procedure on the whole enumeration). -/
def CallingConvention.isNumberedB : CallingConvention → Bool
  | .Numbered _ => true
  | _ => false

/-- The semantic type of the callee field of a call-like terminator: the type
the Typed capability reports for an Either of inline assembly and operand
(Typed for Either and for InlineAssembly live outside src and are modelled
from the spec: each side reports its own semantic type). -/
def calleeType : Sum InlineAssembly Operand → LLVMType
  | .inl asm => asm.ty
  | .inr op => op.get_type

/-- The Typed impl for Invoke from terminator.rs: the result type of the
callee's function type; a callee whose type is not a function type is a
panic, modelled as none. -/
def Invoke.get_type (t : Invoke) : Option LLVMType :=
  match calleeType t.function with
  | .func result_type _ _ => some result_type
  | _ => none

/-- The Typed impl for CallBr from terminator.rs: the result type of the
callee's function type; a callee whose type is not a function type is a
panic, modelled as none. -/
def CallBr.get_type (t : CallBr) : Option LLVMType :=
  match calleeType t.function with
  | .func result_type _ _ => some result_type
  | _ => none

/-- The Typed impl for CatchSwitch from terminator.rs: the body is an
unimplemented marker, i.e. every call panics; modelled as none. -/
def CatchSwitch.get_type (_t : CatchSwitch) : Option LLVMType :=
  none

/-- The Typed impl for Terminator from terminator.rs: dispatch to the
variant's impl.  The variants generated through the void_typed macro (all but
invoke, catchswitch and callbr) report the void type. -/
def Terminator.get_type : Terminator → Option LLVMType
  | .ret _ => some .void
  | .br _ => some .void
  | .condBr _ => some .void
  | .switch _ => some .void
  | .indirectBr _ => some .void
  | .invoke t => t.get_type
  | .resume _ => some .void
  | .unreachable _ => some .void
  | .cleanupRet _ => some .void
  | .catchRet _ => some .void
  | .catchSwitch t => t.get_type
  | .callBr t => t.get_type

/-- Whether a terminator variant is one of those whose Typed impl comes from
the void_typed macro in terminator.rs (every variant except invoke,
catchswitch and callbr). -/
def Terminator.is_void_typed : Terminator → Bool
  | .invoke _ => false
  | .catchSwitch _ => false
  | .callBr _ => false
  | _ => true

/-- The From impl for Ret generated by the impl_term macro in terminator.rs:
wrap the struct in its Terminator variant. -/
def Ret.toTerminator (t : Ret) : Terminator := Terminator.ret t

/-- The From impl for Br generated by the impl_term macro. -/
def Br.toTerminator (t : Br) : Terminator := Terminator.br t

/-- The From impl for CondBr generated by the impl_term macro. -/
def CondBr.toTerminator (t : CondBr) : Terminator := Terminator.condBr t

/-- The From impl for Switch generated by the impl_term macro. -/
def Switch.toTerminator (t : Switch) : Terminator := Terminator.switch t

/-- The From impl for IndirectBr generated by the impl_term macro. -/
def IndirectBr.toTerminator (t : IndirectBr) : Terminator := Terminator.indirectBr t

/-- The From impl for Invoke generated by the impl_term macro. -/
def Invoke.toTerminator (t : Invoke) : Terminator := Terminator.invoke t

/-- The From impl for Resume generated by the impl_term macro. -/
def Resume.toTerminator (t : Resume) : Terminator := Terminator.resume t

/-- The From impl for Unreachable generated by the impl_term macro. -/
def Unreachable.toTerminator (t : Unreachable) : Terminator := Terminator.unreachable t

/-- The From impl for CleanupRet generated by the impl_term macro. -/
def CleanupRet.toTerminator (t : CleanupRet) : Terminator := Terminator.cleanupRet t

/-- The From impl for CatchRet generated by the impl_term macro. -/
def CatchRet.toTerminator (t : CatchRet) : Terminator := Terminator.catchRet t

/-- The From impl for CatchSwitch generated by the impl_term macro. -/
def CatchSwitch.toTerminator (t : CatchSwitch) : Terminator := Terminator.catchSwitch t

/-- The From impl for CallBr generated by the impl_term macro. -/
def CallBr.toTerminator (t : CallBr) : Terminator := Terminator.callBr t

/-- The TryFrom impl for Ret generated by the impl_term macro in
terminator.rs: the matching variant unwraps, any other variant is the static
error string. -/
def Ret.try_from : Terminator → Except String Ret
  | .ret t => .ok t
  | _ => .error "Terminator is not of requested type"

/-- The TryFrom impl for Br generated by the impl_term macro. -/
def Br.try_from : Terminator → Except String Br
  | .br t => .ok t
  | _ => .error "Terminator is not of requested type"

/-- The TryFrom impl for CondBr generated by the impl_term macro. -/
def CondBr.try_from : Terminator → Except String CondBr
  | .condBr t => .ok t
  | _ => .error "Terminator is not of requested type"

/-- The TryFrom impl for Switch generated by the impl_term macro. -/
def Switch.try_from : Terminator → Except String Switch
  | .switch t => .ok t
  | _ => .error "Terminator is not of requested type"

/-- The TryFrom impl for IndirectBr generated by the impl_term macro. -/
def IndirectBr.try_from : Terminator → Except String IndirectBr
  | .indirectBr t => .ok t
  | _ => .error "Terminator is not of requested type"

/-- The TryFrom impl for Invoke generated by the impl_term macro. -/
def Invoke.try_from : Terminator → Except String Invoke
  | .invoke t => .ok t
  | _ => .error "Terminator is not of requested type"

/-- The TryFrom impl for Resume generated by the impl_term macro. -/
def Resume.try_from : Terminator → Except String Resume
  | .resume t => .ok t
  | _ => .error "Terminator is not of requested type"

/-- The TryFrom impl for Unreachable generated by the impl_term macro. -/
def Unreachable.try_from : Terminator → Except String Unreachable
  | .unreachable t => .ok t
  | _ => .error "Terminator is not of requested type"

/-- The TryFrom impl for CleanupRet generated by the impl_term macro. -/
def CleanupRet.try_from : Terminator → Except String CleanupRet
  | .cleanupRet t => .ok t
  | _ => .error "Terminator is not of requested type"

/-- The TryFrom impl for CatchRet generated by the impl_term macro. -/
def CatchRet.try_from : Terminator → Except String CatchRet
  | .catchRet t => .ok t
  | _ => .error "Terminator is not of requested type"

/-- The TryFrom impl for CatchSwitch generated by the impl_term macro. -/
def CatchSwitch.try_from : Terminator → Except String CatchSwitch
  | .catchSwitch t => .ok t
  | _ => .error "Terminator is not of requested type"

/-- The TryFrom impl for CallBr generated by the impl_term macro. -/
def CallBr.try_from : Terminator → Except String CallBr
  | .callBr t => .ok t
  | _ => .error "Terminator is not of requested type"

/-- A concrete foreign environment for the witness instances: a value handle
is its own block handle; handles 2 and 4 classify as 32-bit integer
constants, handle 100 as metadata, and every other handle as a local of
1-bit integer type. -/
def exEnv : LLVMEnv where
  opToBB := fun v => v
  valueDesc := fun v =>
    if v = 2 then .constant ⟨2, .integer 32⟩
    else if v = 4 then .constant ⟨4, .integer 32⟩
    else if v = 100 then .metadata
    else .localValue (.integer 1)

/-- A concrete function context for the witness instances: six named blocks,
one named value, counter at zero. -/
def exFctx : FunctionContext where
  bb_names := [(7, .name "bbA"), (9, .name "bbT"), (11, .name "bbF"),
               (13, .name "bbD"), (15, .name "bb1"), (17, .name "bb2")]
  val_names := [(5, .name "c")]
  ctr := 0

/-- A trivial decoded call site for the witness instances. -/
def exCallInfo : CallInfo := ⟨Sum.inr .metadataOperand, [], [], [], .C⟩

/-- A concrete unconditional branch instruction: one operand, block handle 7. -/
def exBrInstr : LLVMInstr := ⟨.br, [7], [7], none, 0, 0, [], none, none, exCallInfo⟩

/-- A concrete conditional branch instruction: condition handle 5, operand 1
the false block 11, operand 2 the true block 9. -/
def exCondBrInstr : LLVMInstr := ⟨.br, [5, 11, 9], [9, 11], none, 0, 0, [], none, none, exCallInfo⟩

/-- A concrete switch instruction with two cases: scrutinee handle 5, default
block 13, case constants at operand slots 2 and 4 (handles 2 and 4), case
blocks at successor slots 1 and 2 (handles 15 and 17). -/
def exSwitchInstr : LLVMInstr :=
  ⟨.switch, [5, 13, 2, 15, 4, 17], [13, 15, 17], none, 0, 13, [], none, none, exCallInfo⟩

/-- A concrete invoke instruction with an empty value name (so the result is
numbered from the counter), normal destination 7, unwind destination 9. -/
def exInvokeInstr : LLVMInstr := ⟨.invoke, [], [7, 9], some 9, 7, 0, [], none, none, exCallInfo⟩

/-- The decoded form of exInvokeInstr under exEnv and exFctx. -/
def exInvokeDecoded : Invoke :=
  ⟨Sum.inr .metadataOperand, [], [], Name.number 0, Name.name "bbA", Name.name "bbT",
   [], .C, none⟩

/-- A concrete cleanup-return instruction whose foreign unwind-destination
query returns no destination (a null handle). -/
def exCleanupRetInstr : LLVMInstr := ⟨.cleanupRet, [5], [], none, 0, 0, [], none, none, exCallInfo⟩

/-- A concrete instruction with a non-terminator opcode. -/
def exOtherInstr : LLVMInstr := ⟨.other 99, [], [], none, 0, 0, [], none, none, exCallInfo⟩

/-- A concrete branch instruction with two operands (neither 1 nor 3). -/
def exBadBrInstr : LLVMInstr := ⟨.br, [5, 5], [], none, 0, 0, [], none, none, exCallInfo⟩

/-- A concrete ret instruction with two operands (more than 1). -/
def exBadRetInstr : LLVMInstr := ⟨.ret, [5, 5], [], none, 0, 0, [], none, none, exCallInfo⟩

/-- A concrete empty return terminator. -/
def exRet : Ret := ⟨none, none⟩

/-- A concrete catchswitch terminator value. -/
def exCatchSwitch : CatchSwitch :=
  ⟨.metadataOperand, [Name.name "h"], none, Name.number 0, none⟩

/-- A concrete attribute catalog knowing one function attribute and one
parameter attribute. -/
def exAttrsData : AttributesData := ⟨[(1, "alignstack")], [(1, "zeroext")]⟩

/-- A concrete function with three basic blocks, two of which share the name
a (the first one must win). -/
def exFunc : Function :=
  ⟨"f", [], false, .void,
   [⟨.name "a", .unreachable ⟨none⟩⟩,
    ⟨.name "b", .unreachable ⟨some ⟨1, 1⟩⟩⟩,
    ⟨.name "a", .ret ⟨none, none⟩⟩],
   [], [], .C, none, 4, none, none, none⟩

/-- Helper: a successful find? returns an element satisfying the predicate at
some index before which no element satisfies it. -/
theorem find?_first {α : Type} (p : α → Bool) :
    ∀ (l : List α) (b : α), l.find? p = some b →
    p b = true ∧ ∃ i, ∃ h : i < l.length, l.get ⟨i, h⟩ = b ∧
      ∀ j (hj : j < i), p (l.get ⟨j, Nat.lt_trans hj h⟩) = false := by
  intro l
  induction l with
  | nil => intro b h; simp [List.find?] at h
  | cons x xs ih =>
    intro b h
    by_cases hx : p x = true
    · rw [List.find?_cons_of_pos _ hx] at h
      injection h with h
      subst h
      exact ⟨hx, 0, Nat.succ_pos _, rfl, fun j hj => absurd hj (Nat.not_lt_zero j)⟩
    · rw [List.find?_cons_of_neg _ (by simpa using hx)] at h
      obtain ⟨hb, i, hi, hget, hfirst⟩ := ih b h
      refine ⟨hb, i + 1, Nat.succ_lt_succ hi, hget, ?_⟩
      intro j hj
      cases j with
      | zero => simpa using hx
      | succ j => exact hfirst j (Nat.lt_of_succ_lt_succ hj)

/-- Claim C10: Function::get_bb_by_name returns none exactly when no basic
block of the function has the given name, and whenever it returns a block,
that block has the given name and is the first block in list order with that
name.  The function reads the block list and does not modify the function
(the embedding is pure by construction). -/
theorem get_bb_by_name_spec (f : Function) (n : Name) :
    (Function.get_bb_by_name f n = none ↔ ∀ bb ∈ f.basic_blocks, bb.name ≠ n) ∧
    (∀ bb, Function.get_bb_by_name f n = some bb →
      bb.name = n ∧ ∃ i, ∃ h : i < f.basic_blocks.length,
        f.basic_blocks.get ⟨i, h⟩ = bb ∧
        ∀ j (hj : j < i), (f.basic_blocks.get ⟨j, Nat.lt_trans hj h⟩).name ≠ n) := by
  constructor
  · rw [Function.get_bb_by_name, List.find?_eq_none]
    simp
  · intro bb h
    rw [Function.get_bb_by_name] at h
    obtain ⟨hb, i, hi, hget, hfirst⟩ := find?_first _ _ _ h
    exact ⟨by simpa using hb, i, hi, hget, fun j hj => by simpa using hfirst j hj⟩

/-- Witness for claim C10 at a concrete function: looking up a name no block
has gives none. -/
theorem get_bb_by_name_spec_witness :
    Function.get_bb_by_name exFunc (Name.name "zz") = none :=
  (get_bb_by_name_spec exFunc (Name.name "zz")).1.mpr (by decide)

/-- Claim C5: an enum attribute whose kind is absent from the catalog decodes
to UnknownAttribute in both the function-attribute and parameter-attribute
decoders, and the conversion does not abort (the result is some, not none). -/
theorem unknown_attr_safe (attrsdata : AttributesData) (kind value : Nat) :
    (attrsdata.lookup_function_attr kind = none →
      FunctionAttribute.from_llvm_ref (.enum kind value) attrsdata =
        some .UnknownAttribute) ∧
    (attrsdata.lookup_param_attr kind = none →
      ParameterAttribute.from_llvm_ref (.enum kind value) attrsdata =
        some .UnknownAttribute) := by
  constructor
  · intro h
    simp [FunctionAttribute.from_llvm_ref, h]
  · intro h
    simp [ParameterAttribute.from_llvm_ref, h]

/-- Witness for claim C5 at a concrete catalog and an untracked kind. -/
theorem unknown_attr_safe_witness :
    FunctionAttribute.from_llvm_ref (.enum 999 0) exAttrsData =
      some .UnknownAttribute ∧
    ParameterAttribute.from_llvm_ref (.enum 999 0) exAttrsData =
      some .UnknownAttribute :=
  ⟨(unknown_attr_safe exAttrsData 999 0).1 rfl,
   (unknown_attr_safe exAttrsData 999 0).2 rfl⟩

/-- Claim C7: a cleanup-return instruction with one operand that decodes, and
whose foreign unwind-destination query returns no destination, decodes
successfully to a CleanupRet whose unwind_dest is the explicit none (unwind
to caller); no error and no substituted default block. -/
theorem cleanupret_unwind_to_caller (env : LLVMEnv) (t : LLVMInstr)
    (fctx : FunctionContext) (v0 : ValueRef) (pad : Operand)
    (hops : t.operands = [v0])
    (hud : t.unwindDest = none)
    (hpad : Operand.from_llvm_ref env fctx v0 = some pad) :
    CleanupRet.from_llvm_ref env t fctx = some ⟨pad, none, t.debugLoc⟩ := by
  simp [CleanupRet.from_llvm_ref, hops, hud, hpad]

/-- Witness for claim C7 at a concrete cleanup-return instruction. -/
theorem cleanupret_unwind_to_caller_witness :
    CleanupRet.from_llvm_ref exEnv exCleanupRetInstr exFctx =
      some ⟨.localOperand (.name "c") (.integer 1), none, none⟩ :=
  cleanupret_unwind_to_caller exEnv exCleanupRetInstr exFctx 5
    (.localOperand (.name "c") (.integer 1)) rfl rfl rfl

/-- Claim C1: a br instruction with exactly 1 operand decodes to the
unconditional Br variant whose dest is the name of that operand's block; one
with exactly 3 operands decodes to the CondBr variant with the condition
decoded from operand 0, the true destination the block name of operand 2 and
the false destination the block name of operand 1. -/
theorem br_decode_correct (env : LLVMEnv) (t : LLVMInstr) (fctx : FunctionContext) :
    (∀ v nm, t.opcode = .br → t.operands = [v] →
      fctx.bb_names.lookup (env.opToBB v) = some nm →
      Terminator.from_llvm_ref env t fctx = some (.br ⟨nm, t.debugLoc⟩, fctx.ctr)) ∧
    (∀ v0 v1 v2 cond tnm fnm, t.opcode = .br → t.operands = [v0, v1, v2] →
      Operand.from_llvm_ref env fctx v0 = some cond →
      fctx.bb_names.lookup (env.opToBB v2) = some tnm →
      fctx.bb_names.lookup (env.opToBB v1) = some fnm →
      Terminator.from_llvm_ref env t fctx =
        some (.condBr ⟨cond, tnm, fnm, t.debugLoc⟩, fctx.ctr)) := by
  constructor
  · intro v nm hop hops hlk
    simp [Terminator.from_llvm_ref, hop, hops, Br.from_llvm_ref, hlk]
  · intro v0 v1 v2 cond tnm fnm hop hops hcond htd hfd
    simp [Terminator.from_llvm_ref, hop, hops, CondBr.from_llvm_ref, hcond, htd, hfd]

/-- Witness for claim C1 at concrete branch instructions: the one-operand
form yields Br to bbA, the three-operand form yields CondBr whose true
destination comes from operand 2 and false destination from operand 1. -/
theorem br_decode_correct_witness :
    Terminator.from_llvm_ref exEnv exBrInstr exFctx =
      some (.br ⟨Name.name "bbA", none⟩, 0) ∧
    Terminator.from_llvm_ref exEnv exCondBrInstr exFctx =
      some (.condBr ⟨.localOperand (.name "c") (.integer 1),
                     Name.name "bbT", Name.name "bbF", none⟩, 0) :=
  ⟨(br_decode_correct exEnv exBrInstr exFctx).1 7 (Name.name "bbA") rfl rfl rfl,
   (br_decode_correct exEnv exCondBrInstr exFctx).2 5 11 9
     (.localOperand (.name "c") (.integer 1)) (Name.name "bbT") (Name.name "bbF")
     rfl rfl rfl rfl rfl⟩

/-- Claim C8: terminator decoding aborts with no partial result (none) on a
non-terminator opcode, on a br whose operand count is neither 1 nor 3, and
on a ret with more than one operand. -/
theorem terminator_decode_fatal_cases (env : LLVMEnv) (t : LLVMInstr)
    (fctx : FunctionContext) :
    (∀ code, t.opcode = .other code → Terminator.from_llvm_ref env t fctx = none) ∧
    (t.opcode = .br → t.operands.length ≠ 1 → t.operands.length ≠ 3 →
      Terminator.from_llvm_ref env t fctx = none) ∧
    (t.opcode = .ret → 2 ≤ t.operands.length →
      Terminator.from_llvm_ref env t fctx = none) := by
  refine ⟨?_, ?_, ?_⟩
  · intro code hop
    simp [Terminator.from_llvm_ref, hop]
  · intro hop h1 h3
    simp only [Terminator.from_llvm_ref, hop]
  · intro hop hlen
    simp only [Terminator.from_llvm_ref, hop]
    rcases hops : t.operands with _ | ⟨a, _ | ⟨b, l⟩⟩
    · rw [hops] at hlen; simp at hlen
    · rw [hops] at hlen; simp at hlen
    · simp [Ret.from_llvm_ref, hops]

/-- Witness for claim C8 at concrete instructions: a non-terminator opcode, a
two-operand br and a two-operand ret each decode to none. -/
theorem terminator_decode_fatal_cases_witness :
    Terminator.from_llvm_ref exEnv exOtherInstr exFctx = none ∧
    Terminator.from_llvm_ref exEnv exBadBrInstr exFctx = none ∧
    Terminator.from_llvm_ref exEnv exBadRetInstr exFctx = none :=
  ⟨(terminator_decode_fatal_cases exEnv exOtherInstr exFctx).1 99 rfl,
   (terminator_decode_fatal_cases exEnv exBadBrInstr exFctx).2.1 rfl
     (by decide) (by decide),
   (terminator_decode_fatal_cases exEnv exBadRetInstr exFctx).2.2 rfl
     (by decide)⟩

/-- Claim C3 counterexample: decoding a concrete invoke whose foreign value
name is empty returns the function context counter incremented by one - the
per-function naming counter IS consumed during phase 2. -/
theorem phase2_counter_consumed :
    Invoke.from_llvm_ref exEnv exInvokeInstr exFctx =
      some (exInvokeDecoded, exFctx.ctr + 1) ∧
    exFctx.ctr + 1 ≠ exFctx.ctr :=
  ⟨rfl, by decide⟩

/-- Claim C3 (amended): during phase 2 a result-producing terminator variant
is assigned its result Name by re-running the phase-1 naming rule
(Name::name_or_num) against the function context counter, which
Function::from_llvm_ref restarts to its post-parameter value before phase 2;
an unnamed result consumes (increments) the counter, and a named result
leaves it unchanged, so the assigned name reproduces the phase-1 name
whenever the phase-2 counter state matches the phase-1 one. -/
theorem phase2_result_naming (env : LLVMEnv) (t : LLVMInstr) (fctx : FunctionContext) :
    (∀ inv c, Invoke.from_llvm_ref env t fctx = some (inv, c) →
      inv.result = (Name.name_or_num t.valueName fctx.ctr).1 ∧
      c = (Name.name_or_num t.valueName fctx.ctr).2) ∧
    (∀ cs c, CatchSwitch.from_llvm_ref env t fctx = some (cs, c) →
      cs.result = (Name.name_or_num t.valueName fctx.ctr).1 ∧
      c = (Name.name_or_num t.valueName fctx.ctr).2) ∧
    (∀ cb c, CallBr.from_llvm_ref env t fctx = some (cb, c) →
      cb.result = (Name.name_or_num t.valueName fctx.ctr).1 ∧
      c = (Name.name_or_num t.valueName fctx.ctr).2) ∧
    (t.valueName = none →
      (Name.name_or_num t.valueName fctx.ctr).2 = fctx.ctr + 1) ∧
    (∀ s, t.valueName = some s →
      Name.name_or_num t.valueName fctx.ctr = (Name.name s, fctx.ctr)) := by
  refine ⟨?_, ?_, ?_, ?_, ?_⟩
  · intro inv c h
    simp only [Invoke.from_llvm_ref, Option.bind_eq_bind, Option.bind_eq_some] at h
    obtain ⟨rl, h1, ud, h2, el, h3, h⟩ := h
    simp only [pure, Option.some.injEq, Prod.mk.injEq] at h
    obtain ⟨hinv, hc⟩ := h
    subst hinv
    exact ⟨rfl, hc.symm⟩
  · intro cs c h
    rcases hud : t.unwindDest with _ | d
    · simp only [CatchSwitch.from_llvm_ref, hud, Option.bind_eq_bind, Option.bind_eq_some,
        Option.some_bind, Option.pure_def, Option.some.injEq, Prod.mk.injEq] at h
      obtain ⟨v0, h0, pp, h1, hs, h2, hcs, hc⟩ := h
      subst hcs
      subst hc
      exact ⟨rfl, rfl⟩
    · simp only [CatchSwitch.from_llvm_ref, hud, Option.bind_eq_bind, Option.bind_eq_some,
        Option.map_eq_some', Option.pure_def, Option.some.injEq, Prod.mk.injEq] at h
      obtain ⟨v0, h0, pp, h1, hs, h2, y, ⟨nm, hlk, hy⟩, hcs, hc⟩ := h
      subst hcs
      subst hc
      exact ⟨rfl, rfl⟩
  · intro cb c h
    simp only [CallBr.from_llvm_ref, Option.bind_eq_bind, Option.bind_eq_some] at h
    obtain ⟨rl, h1, h⟩ := h
    simp only [pure, Option.some.injEq, Prod.mk.injEq] at h
    obtain ⟨hcb, hc⟩ := h
    subst hcb
    exact ⟨rfl, hc.symm⟩
  · intro h
    simp [Name.name_or_num, h]
  · intro s h
    simp [Name.name_or_num, h]

/-- Witness for claim C3 (amended) at the concrete invoke instance. -/
theorem phase2_result_naming_witness :
    exInvokeDecoded.result = (Name.name_or_num exInvokeInstr.valueName exFctx.ctr).1 ∧
    (1 : Nat) = (Name.name_or_num exInvokeInstr.valueName exFctx.ctr).2 :=
  (phase2_result_naming exEnv exInvokeInstr exFctx).1 exInvokeDecoded 1 rfl

/-- Claim C4 counterexample: the Typed impl for CatchSwitch is an
unimplemented marker, so querying the type of a catchswitch terminator fails
(returns none, the embedding of the panic) - not every variant yields a
type. -/
theorem catchswitch_get_type_fails :
    Terminator.get_type (Terminator.catchSwitch exCatchSwitch) = none := rfl

/-- Claim C4 (amended): querying the semantic type of a decoded Terminator
succeeds with the void type on every variant generated through the void_typed
macro (all except invoke, catchswitch and callbr); it always fails on
catchswitch (the impl is unimplemented); and on invoke and callbr it succeeds
exactly when the callee has function type, returning that type's result
type. -/
theorem terminator_get_type_characterization (tm : Terminator) :
    (tm.is_void_typed = true → tm.get_type = some .void) ∧
    (∀ cs, tm = Terminator.catchSwitch cs → tm.get_type = none) ∧
    (∀ inv, tm = Terminator.invoke inv →
      (∀ r ps va, calleeType inv.function = .func r ps va → tm.get_type = some r) ∧
      (tm.get_type = none ↔ ∀ r ps va, calleeType inv.function ≠ .func r ps va)) ∧
    (∀ cb, tm = Terminator.callBr cb →
      (∀ r ps va, calleeType cb.function = .func r ps va → tm.get_type = some r) ∧
      (tm.get_type = none ↔ ∀ r ps va, calleeType cb.function ≠ .func r ps va)) := by
  refine ⟨?_, ?_, ?_, ?_⟩
  · intro hv
    cases tm <;> simp_all [Terminator.is_void_typed, Terminator.get_type]
  · intro cs hcs
    subst hcs
    rfl
  · intro inv hinv
    subst hinv
    constructor
    · intro r ps va hf
      simp [Terminator.get_type, Invoke.get_type, hf]
    · rcases hf : calleeType inv.function with _ | _ | _ | _ | ⟨r, ps, va⟩ <;>
        simp [Terminator.get_type, Invoke.get_type, hf]
  · intro cb hcb
    subst hcb
    constructor
    · intro r ps va hf
      simp [Terminator.get_type, CallBr.get_type, hf]
    · rcases hf : calleeType cb.function with _ | _ | _ | _ | ⟨r, ps, va⟩ <;>
        simp [Terminator.get_type, CallBr.get_type, hf]

/-- Witness for claim C4 (amended) at concrete terminators: a ret reports the
void type, and the concrete catchswitch reports no type. -/
theorem terminator_get_type_characterization_witness :
    Terminator.get_type (Terminator.ret exRet) = some .void ∧
    Terminator.get_type (Terminator.catchSwitch exCatchSwitch) = none :=
  ⟨(terminator_get_type_characterization (Terminator.ret exRet)).1 rfl,
   (terminator_get_type_characterization
     (Terminator.catchSwitch exCatchSwitch)).2.1 exCatchSwitch rfl⟩

/-- Claim C9: for every terminator sub-struct type, TryFrom inverts From
(try_from of the wrapped value is ok of the value), and try_from of a
Terminator held in any other variant is the static error.  One conjunct pair
per sub-struct type, in declaration order. -/
theorem terminator_tryfrom_roundtrip :
    ((∀ t : Ret, Ret.try_from (Ret.toTerminator t) = .ok t) ∧
      (∀ tm, (∀ t : Ret, tm ≠ Ret.toTerminator t) →
        Ret.try_from tm = .error "Terminator is not of requested type")) ∧
    ((∀ t : Br, Br.try_from (Br.toTerminator t) = .ok t) ∧
      (∀ tm, (∀ t : Br, tm ≠ Br.toTerminator t) →
        Br.try_from tm = .error "Terminator is not of requested type")) ∧
    ((∀ t : CondBr, CondBr.try_from (CondBr.toTerminator t) = .ok t) ∧
      (∀ tm, (∀ t : CondBr, tm ≠ CondBr.toTerminator t) →
        CondBr.try_from tm = .error "Terminator is not of requested type")) ∧
    ((∀ t : Switch, Switch.try_from (Switch.toTerminator t) = .ok t) ∧
      (∀ tm, (∀ t : Switch, tm ≠ Switch.toTerminator t) →
        Switch.try_from tm = .error "Terminator is not of requested type")) ∧
    ((∀ t : IndirectBr, IndirectBr.try_from (IndirectBr.toTerminator t) = .ok t) ∧
      (∀ tm, (∀ t : IndirectBr, tm ≠ IndirectBr.toTerminator t) →
        IndirectBr.try_from tm = .error "Terminator is not of requested type")) ∧
    ((∀ t : Invoke, Invoke.try_from (Invoke.toTerminator t) = .ok t) ∧
      (∀ tm, (∀ t : Invoke, tm ≠ Invoke.toTerminator t) →
        Invoke.try_from tm = .error "Terminator is not of requested type")) ∧
    ((∀ t : Resume, Resume.try_from (Resume.toTerminator t) = .ok t) ∧
      (∀ tm, (∀ t : Resume, tm ≠ Resume.toTerminator t) →
        Resume.try_from tm = .error "Terminator is not of requested type")) ∧
    ((∀ t : Unreachable, Unreachable.try_from (Unreachable.toTerminator t) = .ok t) ∧
      (∀ tm, (∀ t : Unreachable, tm ≠ Unreachable.toTerminator t) →
        Unreachable.try_from tm = .error "Terminator is not of requested type")) ∧
    ((∀ t : CleanupRet, CleanupRet.try_from (CleanupRet.toTerminator t) = .ok t) ∧
      (∀ tm, (∀ t : CleanupRet, tm ≠ CleanupRet.toTerminator t) →
        CleanupRet.try_from tm = .error "Terminator is not of requested type")) ∧
    ((∀ t : CatchRet, CatchRet.try_from (CatchRet.toTerminator t) = .ok t) ∧
      (∀ tm, (∀ t : CatchRet, tm ≠ CatchRet.toTerminator t) →
        CatchRet.try_from tm = .error "Terminator is not of requested type")) ∧
    ((∀ t : CatchSwitch, CatchSwitch.try_from (CatchSwitch.toTerminator t) = .ok t) ∧
      (∀ tm, (∀ t : CatchSwitch, tm ≠ CatchSwitch.toTerminator t) →
        CatchSwitch.try_from tm = .error "Terminator is not of requested type")) ∧
    ((∀ t : CallBr, CallBr.try_from (CallBr.toTerminator t) = .ok t) ∧
      (∀ tm, (∀ t : CallBr, tm ≠ CallBr.toTerminator t) →
        CallBr.try_from tm = .error "Terminator is not of requested type")) := by
  refine ⟨⟨fun t => rfl, ?_⟩, ⟨fun t => rfl, ?_⟩, ⟨fun t => rfl, ?_⟩,
    ⟨fun t => rfl, ?_⟩, ⟨fun t => rfl, ?_⟩, ⟨fun t => rfl, ?_⟩,
    ⟨fun t => rfl, ?_⟩, ⟨fun t => rfl, ?_⟩, ⟨fun t => rfl, ?_⟩,
    ⟨fun t => rfl, ?_⟩, ⟨fun t => rfl, ?_⟩, ⟨fun t => rfl, ?_⟩⟩ <;>
  · intro tm h
    cases tm <;> first | rfl | exact absurd rfl (h _)

/-- Witness for claim C9 at concrete values: try_from recovers a wrapped Ret,
and try_from at a different variant gives the error. -/
theorem terminator_tryfrom_roundtrip_witness :
    Ret.try_from (Ret.toTerminator exRet) = .ok exRet ∧
    Br.try_from (Ret.toTerminator exRet) =
      .error "Terminator is not of requested type" :=
  ⟨terminator_tryfrom_roundtrip.1.1 exRet,
   terminator_tryfrom_roundtrip.2.1.2 (Ret.toTerminator exRet)
     (fun t h => by simp [Ret.toTerminator, Br.toTerminator] at h)⟩

/-- Helper for claim C6: a calling convention whose boolean Numbered
discriminator is set is the Numbered variant carrying its own recovered
code. -/
theorem isNumberedB_spec (c : CallingConvention) :
    CallingConvention.isNumberedB c = true →
    c = .Numbered (CallingConvention.to_u32 c) := by
  intro h
  cases c <;> first
    | rfl
    | simp [CallingConvention.isNumberedB] at h

/-- Claim C6: CallingConvention::from_u32 is total (it is a function); every
code outside the known LLVMCallConv enumeration maps to the Numbered escape
carrying that code; every known code maps to a named (non-Numbered) variant;
and the original code is always recoverable from the result (to_u32 is a
left inverse of from_u32). -/
theorem calling_convention_from_u32_total (u : Nat) :
    (u ∉ knownCallConvCodes → CallingConvention.from_u32 u = .Numbered u) ∧
    (u ∈ knownCallConvCodes → ∀ n, CallingConvention.from_u32 u ≠ .Numbered n) ∧
    CallingConvention.to_u32 (CallingConvention.from_u32 u) = u := by
  have hbig : 97 ≤ u → CallingConvention.from_u32 u = .Numbered u := by
    intro hu
    unfold CallingConvention.from_u32
    rw [if_neg (by omega : ¬u = 0)]
    rw [if_neg (by omega : ¬u = 8)]
    rw [if_neg (by omega : ¬u = 9)]
    rw [if_neg (by omega : ¬u = 10)]
    rw [if_neg (by omega : ¬u = 11)]
    rw [if_neg (by omega : ¬u = 12)]
    rw [if_neg (by omega : ¬u = 13)]
    rw [if_neg (by omega : ¬u = 14)]
    rw [if_neg (by omega : ¬u = 15)]
    rw [if_neg (by omega : ¬u = 16)]
    rw [if_neg (by omega : ¬u = 17)]
    rw [if_neg (by omega : ¬u = 64)]
    rw [if_neg (by omega : ¬u = 65)]
    rw [if_neg (by omega : ¬u = 92)]
    rw [if_neg (by omega : ¬u = 70)]
    rw [if_neg (by omega : ¬u = 80)]
    rw [if_neg (by omega : ¬u = 83)]
    rw [if_neg (by omega : ¬u = 78)]
    rw [if_neg (by omega : ¬u = 66)]
    rw [if_neg (by omega : ¬u = 67)]
    rw [if_neg (by omega : ¬u = 68)]
    rw [if_neg (by omega : ¬u = 69)]
    rw [if_neg (by omega : ¬u = 94)]
    rw [if_neg (by omega : ¬u = 71)]
    rw [if_neg (by omega : ¬u = 72)]
    rw [if_neg (by omega : ¬u = 75)]
    rw [if_neg (by omega : ¬u = 76)]
    rw [if_neg (by omega : ¬u = 77)]
    rw [if_neg (by omega : ¬u = 79)]
    rw [if_neg (by omega : ¬u = 81)]
    rw [if_neg (by omega : ¬u = 82)]
    rw [if_neg (by omega : ¬u = 84)]
    rw [if_neg (by omega : ¬u = 85)]
    rw [if_neg (by omega : ¬u = 86)]
    rw [if_neg (by omega : ¬u = 90)]
    rw [if_neg (by omega : ¬u = 96)]
    rw [if_neg (by omega : ¬u = 88)]
    rw [if_neg (by omega : ¬u = 93)]
    rw [if_neg (by omega : ¬u = 95)]
    rw [if_neg (by omega : ¬u = 89)]
    rw [if_neg (by omega : ¬u = 87)]
    rw [if_neg (by omega : ¬u = 91)]
  have hto : CallingConvention.to_u32 (CallingConvention.from_u32 u) = u := by
    rcases Nat.lt_or_ge u 97 with hu | hu
    · exact (by decide : ∀ v : Nat, v < 97 →
        CallingConvention.to_u32 (CallingConvention.from_u32 v) = v) u hu
    · rw [hbig hu]
      rfl
  refine ⟨?_, ?_, hto⟩
  · intro h
    rcases Nat.lt_or_ge u 97 with hu | hu
    · have hnum : CallingConvention.isNumberedB (CallingConvention.from_u32 u) = true :=
        (by decide : ∀ v : Nat, v < 97 → v ∉ knownCallConvCodes →
          CallingConvention.isNumberedB (CallingConvention.from_u32 v) = true) u hu h
      have hspec := isNumberedB_spec _ hnum
      rw [hto] at hspec
      exact hspec
    · exact hbig hu
  · intro h n hN
    have hlt : u < 97 :=
      (by decide : ∀ v : Nat, v ∈ knownCallConvCodes → v < 97) u h
    have hnum : CallingConvention.isNumberedB (CallingConvention.from_u32 u) = false :=
      (by decide : ∀ v : Nat, v < 97 → v ∈ knownCallConvCodes →
        CallingConvention.isNumberedB (CallingConvention.from_u32 v) = false) u hlt h
    rw [hN] at hnum
    simp [CallingConvention.isNumberedB] at hnum

/-- Witness for claim C6 at concrete codes: 1234 is not a known code and maps
to Numbered 1234; 16 is a known code (Swift) and its code is recovered. -/
theorem calling_convention_from_u32_total_witness :
    CallingConvention.from_u32 1234 = .Numbered 1234 ∧
    CallingConvention.from_u32 16 ≠ .Numbered 16 ∧
    CallingConvention.to_u32 (CallingConvention.from_u32 16) = 16 :=
  ⟨(calling_convention_from_u32_total 1234).1 (by decide),
   (calling_convention_from_u32_total 16).2.1 (by decide) 16,
   (calling_convention_from_u32_total 16).2.2⟩

/-- Helper for claim C2: the case-collection loop of Switch::from_llvm_ref
produces exactly the zip of the given constants and block names when, for
every case index, the operand slot at twice the running index holds a handle
classifying as the expected constant and the successor slot at the running
index resolves to the expected name. -/
theorem collectDests_eq (env : LLVMEnv) (t : LLVMInstr) (fctx : FunctionContext) :
    ∀ (k off : Nat) (vals : List ConstantRef) (bbs : List Name),
    vals.length = k → bbs.length = k →
    (∀ i, i < k → ∃ vr, t.operands.get? (2 * (off + i)) = some vr ∧
      env.valueDesc vr = .constant (vals.getD i ⟨0, .void⟩)) →
    (∀ i, i < k → ∃ b, t.successors.get? (off + i) = some b ∧
      fctx.bb_names.lookup b = some (bbs.getD i (Name.number 0))) →
    Switch.collectDests env t fctx off k = some (vals.zip bbs) := by
  intro k
  induction k with
  | zero =>
    intro off vals bbs h1 h2 _ _
    rw [List.length_eq_zero] at h1 h2
    subst h1
    subst h2
    rfl
  | succ k ih =>
    intro off vals bbs h1 h2 hconst hsucc
    rcases vals with _ | ⟨c, vals'⟩
    · simp at h1
    rcases bbs with _ | ⟨nm, bbs'⟩
    · simp at h2
    obtain ⟨vr, hvr, hc⟩ := hconst 0 (Nat.succ_pos k)
    obtain ⟨b, hb, hnm⟩ := hsucc 0 (Nat.succ_pos k)
    rw [Nat.add_zero] at hvr hb
    rw [List.getD_cons_zero] at hc
    rw [List.getD_cons_zero] at hnm
    have hrest := ih (off + 1) vals' bbs' (by simpa using h1) (by simpa using h2)
      (fun i hi => by
        obtain ⟨vr', h1', h2'⟩ := hconst (i + 1) (Nat.succ_lt_succ hi)
        refine ⟨vr', ?_, ?_⟩
        · rw [show off + 1 + i = off + (i + 1) by omega]
          exact h1'
        · rw [List.getD_cons_succ] at h2'
          exact h2')
      (fun i hi => by
        obtain ⟨b', h1', h2'⟩ := hsucc (i + 1) (Nat.succ_lt_succ hi)
        refine ⟨b', ?_, ?_⟩
        · rw [show off + 1 + i = off + (i + 1) by omega]
          exact h1'
        · rw [List.getD_cons_succ] at h2'
          exact h2')
    simp only [Switch.collectDests, Option.bind_eq_bind, hvr, hc, hb, hnm, hrest,
      Option.some_bind, List.zip_cons_cons, Option.pure_def]

/-- Claim C2: a switch whose foreign shape is well-formed (the scrutinee at
operand slot 0 decodes; there are k + 1 successors, slot 0 being the default
destination, which resolves to name D; for each case i below k, operand slot
2 * (1 + i) holds a constant handle and successor slot 1 + i resolves to a
name) decodes to a Switch whose default_dest is D and whose dests list is
exactly the k (constant, name) pairs in declaration order. -/
theorem switch_decode_correct (env : LLVMEnv) (t : LLVMInstr) (fctx : FunctionContext)
    (k : Nat) (v0 : ValueRef) (op : Operand) (D : Name)
    (vals : List ConstantRef) (bbs : List Name)
    (hops0 : t.operands.get? 0 = some v0)
    (hop : Operand.from_llvm_ref env fctx v0 = some op)
    (hsucclen : t.successors.length = k + 1)
    (hdef0 : t.successors.get? 0 = some t.switchDefaultDest)
    (hdefD : fctx.bb_names.lookup t.switchDefaultDest = some D)
    (hvals : vals.length = k) (hbbs : bbs.length = k)
    (hconst : ∀ i, i < k → ∃ vr, t.operands.get? (2 * (1 + i)) = some vr ∧
      env.valueDesc vr = .constant (vals.getD i ⟨0, .void⟩))
    (hsucc : ∀ i, i < k → ∃ b, t.successors.get? (1 + i) = some b ∧
      fctx.bb_names.lookup b = some (bbs.getD i (Name.number 0))) :
    Switch.from_llvm_ref env t fctx = some ⟨op, vals.zip bbs, D, t.debugLoc⟩ := by
  have hd : Switch.collectDests env t fctx 1 (t.successors.length - 1) =
      some (vals.zip bbs) := by
    rw [hsucclen]
    simp only [Nat.add_sub_cancel]
    exact collectDests_eq env t fctx k 1 vals bbs hvals hbbs hconst hsucc
  simp only [List.get?_eq_getElem?] at hops0
  simp [Switch.from_llvm_ref, hops0, hop, hd, hdefD]

/-- Witness for claim C2 at the concrete two-case switch: the case list pairs
the constants at operand slots 2 and 4 with the names of successor slots 1
and 2, and the default destination resolves through
LLVMGetSwitchDefaultDest. -/
theorem switch_decode_correct_witness :
    Switch.from_llvm_ref exEnv exSwitchInstr exFctx =
      some ⟨.localOperand (.name "c") (.integer 1),
            [(⟨2, .integer 32⟩, Name.name "bb1"), (⟨4, .integer 32⟩, Name.name "bb2")],
            Name.name "bbD", none⟩ :=
  switch_decode_correct exEnv exSwitchInstr exFctx 2 5
    (.localOperand (.name "c") (.integer 1)) (Name.name "bbD")
    [⟨2, .integer 32⟩, ⟨4, .integer 32⟩] [Name.name "bb1", Name.name "bb2"]
    rfl rfl rfl rfl rfl rfl rfl
    (by
      intro i hi
      match i, hi with
      | 0, _ => exact ⟨2, rfl, rfl⟩
      | 1, _ => exact ⟨4, rfl, rfl⟩
      | i + 2, hi => exact absurd hi (by omega))
    (by
      intro i hi
      match i, hi with
      | 0, _ => exact ⟨15, rfl, rfl⟩
      | 1, _ => exact ⟨17, rfl, rfl⟩
      | i + 2, hi => exact absurd hi (by omega))
